import Mathlib

/-!
Verification of the interact.js excerpt: the reflow / interaction-replay
subsystem (modelled from the specification, since only its tests are in the
excerpt) and the `interact` facade module
(`src/packages/interact/interact.js`).
-/

/-- A 2-D coordinate pair, as used for `coords.page` values. -/
structure Point where
  x : Int
  y : Int
deriving DecidableEq, Repr

/-- A bounding rectangle as produced by an interactable's `rectChecker`
measurement callback: `{top, left, bottom, right}`. -/
structure Rect where
  top : Int
  left : Int
  bottom : Int
  right : Int
deriving DecidableEq, Repr

/-- A synthesized event delivered to the interactable's `fire` sink: a
`type` string (action name + phase) and, for move events, a `delta`. -/
structure IEvent where
  type : String
  delta : Option Point
deriving DecidableEq, Repr

/-- Modelled from the spec: the observable state of a synthetic
`Interaction` (the `Interaction` class itself is outside the excerpt).
It owns `startCoords.page`, `curCoords.page`, the previous tick's
coordinates, the list of active pointer ids, `pointerIsDown`, and the
flag backing the `interacting()` predicate. -/
structure Interaction where
  startCoordsPage : Point
  curCoordsPage : Point
  prevCoordsPage : Point
  pointers : List Nat
  pointerIsDown : Bool
  interactingFlag : Bool
deriving DecidableEq, Repr

/-- The `interacting()` predicate of an interaction. -/
def Interaction.interacting (i : Interaction) : Bool :=
  i.interactingFlag

/-- Error taxonomy of `reflow()`: an action name absent from the registry,
or a missing rect-measurement callback. -/
inductive ReflowError
  | invalidActionName
  | measurementUnavailable
deriving DecidableEq, Repr

/-- Modelled from the spec: the environment a single `reflow()` call runs
in.  `actionNames` is `scope.actions.names`; `rectChecker` is the
interactable's measurement callback (`none` when not configured), which
here directly yields the rectangle measured at invocation time;
`interactableId` identifies the interactable the method is called on
(the value the returned promise resolves to); `scopeList` holds the ids
of the interactions in `scope.interactions.list` before the call;
`newId` is the id allocated to the synthetic interaction; `moveUpdate`
is the combined effect of the `before-action-move` signal handlers on
`curCoords.page`; `endVeto` records whether some `before-action-end`
handler returns the veto sentinel `false`. -/
structure ReflowEnv where
  actionNames : List String
  rectChecker : Option Rect
  interactableId : Nat
  scopeList : List Nat
  newId : Nat
  moveUpdate : Interaction → Point
  endVeto : Bool

/-- The observable outcome of a `reflow()` call: the error (if any), the
events fired through the interactable's `fire` sink so far, the interaction
ids in `scope.interactions.list` afterwards, the synthetic interaction's
state, and the value the returned promise has resolved to (`none` while
still pending). -/
structure ReflowCall where
  error : Option ReflowError
  fired : List IEvent
  scopeListAfter : List Nat
  interaction : Option Interaction
  resolvedValue : Option Nat
deriving Repr

/-- Modelled from the spec: the synthetic interaction created in step 1 of
the reflow sequence, seeded with `startCoords.page = {x: rect.left,
y: rect.top}`, `pointerIsDown = true` and exactly one synthetic pointer. -/
def initialInteraction (rc : Rect) : Interaction :=
  { startCoordsPage := ⟨rc.left, rc.top⟩
    curCoordsPage := ⟨rc.left, rc.top⟩
    prevCoordsPage := ⟨rc.left, rc.top⟩
    pointers := [0]
    pointerIsDown := true
    interactingFlag := true }

/-- Modelled from the spec: the reflow engine (`@interactjs/reflow`, whose
implementation is outside the excerpt; only its tests are included).
Steps follow spec section 4.1: validate the action name, measure the
rectangle, create the synthetic interaction, fire `<name>reflow` and
`<name>start`, emit `before-action-move` (handlers may steer
`curCoords.page`), fire `<name>move` with the component-wise delta, lift
the synthetic pointer, emit `before-action-end`; on veto the interaction
stays interacting and in the scope list and the promise stays pending,
otherwise `<name>end` fires, the interaction leaves the list and the
promise resolves to the interactable. -/
def reflow (env : ReflowEnv) (name : String) : ReflowCall :=
  if name ∈ env.actionNames then
    match env.rectChecker with
    | some rc =>
      let i0 := initialInteraction rc
      let eReflow : IEvent := ⟨name ++ "reflow", none⟩
      let eStart : IEvent := ⟨name ++ "start", none⟩
      let newCur := env.moveUpdate i0
      let i1 : Interaction := { i0 with curCoordsPage := newCur }
      let eMove : IEvent :=
        ⟨name ++ "move",
         some ⟨newCur.x - i0.prevCoordsPage.x, newCur.y - i0.prevCoordsPage.y⟩⟩
      let i2 : Interaction := { i1 with pointerIsDown := false, pointers := [] }
      if env.endVeto then
        { error := none
          fired := [eReflow, eStart, eMove]
          scopeListAfter := env.scopeList ++ [env.newId]
          interaction := some i2
          resolvedValue := none }
      else
        { error := none
          fired := [eReflow, eStart, eMove, ⟨name ++ "end", none⟩]
          scopeListAfter := (env.scopeList ++ [env.newId]).erase env.newId
          interaction := some { i2 with interactingFlag := false }
          resolvedValue := some env.interactableId }
    | none =>
      { error := some .measurementUnavailable
        fired := []
        scopeListAfter := env.scopeList
        interaction := none
        resolvedValue := none }
  else
    { error := some .invalidActionName
      fired := []
      scopeListAfter := env.scopeList
      interaction := none
      resolvedValue := none }

/-- Modelled from the spec: `interaction.stop()` invoked while the reflow
interaction is in the `ENDING` state (after a veto) finalizes the sequence
as a normal completion: the pending `<name>end` event fires, the
interaction stops interacting and leaves the scope list, and the promise
resolves to the interactable. -/
def stopReflow (env : ReflowEnv) (name : String) (c : ReflowCall) : ReflowCall :=
  match c.interaction with
  | some i =>
    if i.interactingFlag then
      { error := none
        fired := c.fired ++ [⟨name ++ "end", none⟩]
        scopeListAfter := c.scopeListAfter.erase env.newId
        interaction := some { i with interactingFlag := false }
        resolvedValue := some env.interactableId }
    else c
  | none => c

/-- The state of one entry of `scope.interactions.list` as seen by the
`unset` handler in `src/packages/interact/interact.js`: the interactable
it is bound to, its `interacting()` value, its `_ending` flag, and a
marker recording whether `stop()` has been invoked on it. -/
structure InteractionRec where
  boundTo : Nat
  interactingB : Bool
  ending : Bool
  stopped : Bool
deriving DecidableEq, Repr

/-- Invoking `interaction.stop()` on a list entry (the `Interaction` class
is outside the excerpt; we record only that the call happened). -/
def InteractionRec.stopRec (i : InteractionRec) : InteractionRec :=
  { i with stopped := true }

/-- The slice of scope state that the `unset` signal handler in
`src/packages/interact/interact.js` reads and writes. -/
structure UnsetScope where
  interactablesList : List Nat
  interactionsList : List InteractionRec
deriving DecidableEq, Repr

/-- The effect of `list.splice(list.indexOf(x), 1)` in JavaScript: when
`x` is in the list, its first occurrence is removed; when it is absent,
`indexOf` yields `-1` and `splice(-1, 1)` removes the LAST element of the
list (and nothing when the list is empty). -/
def spliceIndexOf (l : List Nat) (a : Nat) : List Nat :=
  if a ∈ l then l.erase a else l.dropLast

/-- The `scope.interactables.signals.on('unset', ...)` handler of
`src/packages/interact/interact.js`:
`scope.interactables.list.splice(scope.interactables.list.indexOf(interactable), 1)`,
then for each interaction of `scope.interactions.list`, call `stop()` iff
`interaction.interactable === interactable && interaction.interacting()
&& interaction._ending`. -/
def onUnset (s : UnsetScope) (interactable : Nat) : UnsetScope :=
  { interactablesList := spliceIndexOf s.interactablesList interactable
    interactionsList := s.interactionsList.map fun i =>
      if i.boundTo == interactable && i.interactingB && i.ending
      then i.stopRec else i }

/-- An entry of `scope.interactables.list`: its lookup key (target and
context) and an identity. -/
structure InteractableEntry where
  target : Nat
  context : Nat
  id : Nat
deriving DecidableEq, Repr

/-- The slice of scope state the `interact` facade function reads and
writes: `scope.interactables.list` plus a fresh-id counter standing for
allocation of new `Interactable` objects. -/
structure IScope where
  list : List InteractableEntry
  nextId : Nat
deriving DecidableEq, Repr

/-- Modelled from the spec: `scope.interactables.get(target, options)`
(the `core/scope` module is outside the excerpt) — lookup of the existing
configuration object for a target and context in the ordered list. -/
def interactablesGet (s : IScope) (target context : Nat) : Option InteractableEntry :=
  s.list.find? fun e => e.target == target && e.context == context

/-- Modelled from the spec: `scope.interactables.new(target, options)`
(the `core/scope` module is outside the excerpt) — creation of a new
per-target configuration object, appended to the scope's list. -/
def interactablesNew (s : IScope) (target context : Nat) : InteractableEntry × IScope :=
  let e : InteractableEntry := ⟨target, context, s.nextId⟩
  (e, { list := s.list ++ [e], nextId := s.nextId + 1 })

/-- The `interact(target, options)` facade function of
`src/packages/interact/interact.js`: try `scope.interactables.get`, and
only when it yields nothing call `scope.interactables.new`. -/
def interactFn (s : IScope) (target context : Nat) : InteractableEntry × IScope :=
  match interactablesGet s target context with
  | some e => (e, s)
  | none => interactablesNew s target context

/-- The state touched by `interact.use`: `scope._plugins` plus the list of
plugins whose `install(scope)` has been invoked, in invocation order. -/
structure PluginScope where
  plugins : List Nat
  installed : List Nat
deriving DecidableEq, Repr

/-- The `use(plugin)` function of `src/packages/interact/interact.js`:
return unchanged when `scope._plugins.indexOf(plugin) !== -1`, otherwise
call `plugin.install(scope)` and push the plugin onto `scope._plugins`. -/
def use (s : PluginScope) (p : Nat) : PluginScope :=
  if p ∈ s.plugins then s
  else { plugins := s.plugins ++ [p], installed := s.installed ++ [p] }

/-- Appending strings on the left of `++` is injective in the right
operand. -/
theorem append_right_inj_str (s : String) {a b : String} (h : s ++ a = s ++ b) : a = b := by
  have hd := congrArg String.data h
  simp only [String.data_append] at hd
  have h2 := List.append_cancel_left hd
  cases a
  cases b
  exact congrArg String.mk h2

/-- A concrete reflow environment with action `test` registered, the
rectangle of the tests, and no veto handler. -/
def envNoVeto : ReflowEnv :=
  { actionNames := ["test"]
    rectChecker := some ⟨100, 200, 300, 400⟩
    interactableId := 11
    scopeList := []
    newId := 0
    moveUpdate := fun i => i.curCoordsPage
    endVeto := false }

/-- A concrete reflow environment whose `before-action-end` handler
returns the veto sentinel. -/
def envVeto : ReflowEnv :=
  { actionNames := ["test"]
    rectChecker := some ⟨100, 200, 300, 400⟩
    interactableId := 11
    scopeList := []
    newId := 0
    moveUpdate := fun i => i.curCoordsPage
    endVeto := true }

/-- A concrete reflow environment whose `before-action-move` handler sets
`curCoords.page = {x: rect.left + 100, y: rect.top - 50}`. -/
def envSteered : ReflowEnv :=
  { actionNames := ["test"]
    rectChecker := some ⟨100, 200, 300, 400⟩
    interactableId := 11
    scopeList := []
    newId := 0
    moveUpdate := fun _ => ⟨(200 : Int) + 100, (100 : Int) - 50⟩
    endVeto := false }

/-- C1: for an action name registered in `scope.actions.names`, one
un-vetoed `reflow({name})` call fires exactly four events through the
interactable's `fire` sink, in the exact order `<name>reflow`,
`<name>start`, `<name>move`, `<name>end`, none of them more than once. -/
theorem reflow_fires_exactly_four_phases_in_order
    (env : ReflowEnv) (name : String) (rc : Rect)
    (hname : name ∈ env.actionNames) (hrect : env.rectChecker = some rc)
    (hveto : env.endVeto = false) :
    ((reflow env name).fired.map IEvent.type)
      = [name ++ "reflow", name ++ "start", name ++ "move", name ++ "end"]
    ∧ ((reflow env name).fired.map IEvent.type).Nodup := by
  have hmap : ((reflow env name).fired.map IEvent.type)
      = [name ++ "reflow", name ++ "start", name ++ "move", name ++ "end"] := by
    simp [reflow, hname, hrect, hveto]
  refine ⟨hmap, ?_⟩
  rw [hmap]
  have hne : ∀ a b : String, a ≠ b → name ++ a ≠ name ++ b := by
    intro a b hab hcontra
    exact hab (append_right_inj_str name hcontra)
  simp only [List.nodup_cons, List.mem_cons, List.mem_singleton, List.not_mem_nil,
    not_false_eq_true, and_true, List.nodup_nil, not_or]
  refine ⟨⟨?_, ?_, ?_⟩, ⟨?_, ?_⟩, ?_⟩ <;> exact hne _ _ (by decide)

/-- C1 witness. -/
theorem reflow_fires_exactly_four_phases_in_order_witness :
    ((reflow envNoVeto "test").fired.map IEvent.type)
      = ["test" ++ "reflow", "test" ++ "start", "test" ++ "move", "test" ++ "end"]
    ∧ ((reflow envNoVeto "test").fired.map IEvent.type).Nodup :=
  reflow_fires_exactly_four_phases_in_order envNoVeto "test" ⟨100, 200, 300, 400⟩
    (by decide) rfl rfl

/-- C2: when a `before-action-end` handler returns the veto sentinel
`false`, the interaction is still `interacting()` right after `reflow()`
returns and still sits in the scope's interaction list, the promise is
still pending, and only once `interaction.stop()` is later invoked does
the promise resolve, after which `interacting()` is `false`. -/
theorem reflow_veto_keeps_interacting_until_stop
    (env : ReflowEnv) (name : String) (rc : Rect)
    (hname : name ∈ env.actionNames) (hrect : env.rectChecker = some rc)
    (hveto : env.endVeto = true) :
    (∃ i, (reflow env name).interaction = some i ∧ i.interacting = true)
    ∧ env.newId ∈ (reflow env name).scopeListAfter
    ∧ (reflow env name).resolvedValue = none
    ∧ (∃ i, (stopReflow env name (reflow env name)).interaction = some i
        ∧ i.interacting = false)
    ∧ (stopReflow env name (reflow env name)).resolvedValue = some env.interactableId := by
  simp [reflow, hname, hrect, hveto, stopReflow, Interaction.interacting, initialInteraction]

/-- C2 witness. -/
theorem reflow_veto_keeps_interacting_until_stop_witness :
    (∃ i, (reflow envVeto "test").interaction = some i ∧ i.interacting = true)
    ∧ envVeto.newId ∈ (reflow envVeto "test").scopeListAfter
    ∧ (reflow envVeto "test").resolvedValue = none
    ∧ (∃ i, (stopReflow envVeto "test" (reflow envVeto "test")).interaction = some i
        ∧ i.interacting = false)
    ∧ (stopReflow envVeto "test" (reflow envVeto "test")).resolvedValue
        = some envVeto.interactableId :=
  reflow_veto_keeps_interacting_until_stop envVeto "test" ⟨100, 200, 300, 400⟩
    (by decide) rfl rfl

/-- C3: `reflow()` yields a completion handle resolving to the
interactable itself; without a veto the completion is synchronous — the
promise is already resolved when the call returns and the interaction is
no longer `interacting()`. -/
theorem reflow_unvetoed_resolves_synchronously_to_interactable
    (env : ReflowEnv) (name : String) (rc : Rect)
    (hname : name ∈ env.actionNames) (hrect : env.rectChecker = some rc)
    (hveto : env.endVeto = false) :
    (reflow env name).resolvedValue = some env.interactableId
    ∧ ∃ i, (reflow env name).interaction = some i ∧ i.interacting = false := by
  simp [reflow, hname, hrect, hveto, Interaction.interacting, initialInteraction]

/-- C3 witness. -/
theorem reflow_unvetoed_resolves_synchronously_to_interactable_witness :
    (reflow envNoVeto "test").resolvedValue = some envNoVeto.interactableId
    ∧ ∃ i, (reflow envNoVeto "test").interaction = some i ∧ i.interacting = false :=
  reflow_unvetoed_resolves_synchronously_to_interactable envNoVeto "test"
    ⟨100, 200, 300, 400⟩ (by decide) rfl rfl

/-- C4: after an un-vetoed reflow completes, the synthetic interaction is
terminal: `pointerIsDown = false`, `pointers.length = 0`, and the
interaction is gone from `scope.interactions.list`. -/
theorem reflow_unvetoed_terminal_state
    (env : ReflowEnv) (name : String) (rc : Rect)
    (hname : name ∈ env.actionNames) (hrect : env.rectChecker = some rc)
    (hveto : env.endVeto = false) (hfresh : env.newId ∉ env.scopeList) :
    (∃ i, (reflow env name).interaction = some i
      ∧ i.pointerIsDown = false ∧ i.pointers = [])
    ∧ env.newId ∉ (reflow env name).scopeListAfter := by
  constructor
  · simp [reflow, hname, hrect, hveto, initialInteraction]
  · have hlist : (reflow env name).scopeListAfter
        = (env.scopeList ++ [env.newId]).erase env.newId := by
      simp [reflow, hname, hrect, hveto]
    rw [hlist, List.erase_append_right _ hfresh]
    simpa using hfresh

/-- C4 witness. -/
theorem reflow_unvetoed_terminal_state_witness :
    (∃ i, (reflow envNoVeto "test").interaction = some i
      ∧ i.pointerIsDown = false ∧ i.pointers = [])
    ∧ envNoVeto.newId ∉ (reflow envNoVeto "test").scopeListAfter :=
  reflow_unvetoed_terminal_state envNoVeto "test" ⟨100, 200, 300, 400⟩
    (by decide) rfl rfl (by decide)

/-- C5: for every reflow invocation (vetoed or not), the synthetic
interaction's `startCoords.page` equals `{x: rect.left, y: rect.top}` for
the rectangle measured by the interactable's `rectChecker` at invocation
time. -/
theorem reflow_start_coords_are_rect_top_left
    (env : ReflowEnv) (name : String) (rc : Rect)
    (hname : name ∈ env.actionNames) (hrect : env.rectChecker = some rc) :
    ∃ i, (reflow env name).interaction = some i
      ∧ i.startCoordsPage = ⟨rc.left, rc.top⟩ := by
  cases hv : env.endVeto <;>
    simp [reflow, hname, hrect, hv, initialInteraction]

/-- C5 witness. -/
theorem reflow_start_coords_are_rect_top_left_witness :
    ∃ i, (reflow envNoVeto "test").interaction = some i
      ∧ i.startCoordsPage = ⟨200, 100⟩ :=
  reflow_start_coords_are_rect_top_left envNoVeto "test" ⟨100, 200, 300, 400⟩
    (by decide) rfl

/-- C6: the `before-action-move` signal runs before the move event is
computed, so a handler that sets `curCoords.page = {x: rect.left + 100,
y: rect.top - 50}` makes the emitted move event's `delta` (the
component-wise difference between `curCoords.page` and the previous
tick's coordinates) equal `{x: 100, y: -50}`. -/
theorem reflow_move_delta_from_steered_coords
    (env : ReflowEnv) (name : String) (rc : Rect)
    (hname : name ∈ env.actionNames) (hrect : env.rectChecker = some rc)
    (hmove : env.moveUpdate = fun _ => ⟨rc.left + 100, rc.top - 50⟩) :
    (reflow env name).fired[2]? = some ⟨name ++ "move", some ⟨100, -50⟩⟩ := by
  cases hv : env.endVeto <;>
    simp [reflow, hname, hrect, hv, hmove, initialInteraction]

/-- C6 witness. -/
theorem reflow_move_delta_from_steered_coords_witness :
    (reflow envSteered "test").fired[2]? = some ⟨"test" ++ "move", some ⟨100, -50⟩⟩ :=
  reflow_move_delta_from_steered_coords envSteered "test" ⟨100, 200, 300, 400⟩
    (by decide) rfl rfl

/-- C7: a reflow call with an unregistered action name, or on an
interactable without a configured `rectChecker`, fails before any event
of the sequence fires and leaves the scope's interaction list
untouched. -/
theorem reflow_invalid_input_fails_before_any_event
    (env : ReflowEnv) (name : String)
    (h : name ∉ env.actionNames ∨ env.rectChecker = none) :
    (reflow env name).fired = []
    ∧ (reflow env name).scopeListAfter = env.scopeList
    ∧ (reflow env name).interaction = none
    ∧ (reflow env name).resolvedValue = none
    ∧ (reflow env name).error ≠ none := by
  rcases h with h | h
  · simp [reflow, h]
  · by_cases hn : name ∈ env.actionNames <;> simp [reflow, h, hn]

/-- C7 witness. -/
theorem reflow_invalid_input_fails_before_any_event_witness :
    (reflow envNoVeto "bogus").fired = []
    ∧ (reflow envNoVeto "bogus").scopeListAfter = envNoVeto.scopeList
    ∧ (reflow envNoVeto "bogus").interaction = none
    ∧ (reflow envNoVeto "bogus").resolvedValue = none
    ∧ (reflow envNoVeto "bogus").error ≠ none :=
  reflow_invalid_input_fails_before_any_event envNoVeto "bogus"
    (Or.inl (by decide))

/-- C8 (counterexample): an interaction bound to the unset interactable
that is not `interacting()` (and not `_ending`) does NOT get `stop()`
invoked on it by the `unset` handler, refuting the claim that every
interaction bound to the unset interactable is stopped. -/
theorem unset_leaves_bound_noninteracting_interaction_unstopped :
    ((⟨[7], [⟨7, false, false, false⟩]⟩ : UnsetScope).interactionsList.all
        fun i => i.boundTo == 7) = true
    ∧ ¬ (∀ i ∈ (onUnset ⟨[7], [⟨7, false, false, false⟩]⟩ 7).interactionsList,
          i.stopped = true) := by
  constructor
  · decide
  · decide

/-- C8 (amended): unsetting an interactable present (once) in the scope's
interactables list removes it from that list, and `stop()` is invoked
exactly on those interactions of `scope.interactions.list` that are bound
to it AND are `interacting()` AND have `_ending` set; every other
interaction is left untouched. -/
theorem unset_removes_interactable_and_stops_ending_interactions
    (s : UnsetScope) (a : Nat) (hmem : a ∈ s.interactablesList)
    (hnd : s.interactablesList.Nodup) :
    (onUnset s a).interactablesList = s.interactablesList.erase a
    ∧ a ∉ (onUnset s a).interactablesList
    ∧ ∀ i ∈ s.interactionsList,
        (i.boundTo = a ∧ i.interactingB = true ∧ i.ending = true →
          i.stopRec ∈ (onUnset s a).interactionsList)
        ∧ (¬ (i.boundTo = a ∧ i.interactingB = true ∧ i.ending = true) →
          i ∈ (onUnset s a).interactionsList) := by
  have hlist : (onUnset s a).interactablesList = s.interactablesList.erase a := by
    simp [onUnset, spliceIndexOf, hmem]
  refine ⟨hlist, ?_, ?_⟩
  · rw [hlist]
    exact hnd.not_mem_erase
  · intro i hi
    have hmapped := List.mem_map_of_mem (fun i =>
      if i.boundTo == a && i.interactingB && i.ending
      then i.stopRec else i) hi
    constructor
    · rintro ⟨h1, h2, h3⟩
      simpa [onUnset, h1, h2, h3] using hmapped
    · intro hne
      have hcond : (i.boundTo == a && i.interactingB && i.ending) = false := by
        rcases Bool.eq_false_or_eq_true (i.boundTo == a && i.interactingB && i.ending)
          with hb | hb
        · exact absurd (by simpa [and_assoc] using hb) hne
        · exact hb
      simpa [onUnset, hcond] using hmapped

/-- C8 (amended) witness. -/
theorem unset_removes_interactable_and_stops_ending_interactions_witness :
    (onUnset ⟨[7], [⟨7, true, true, false⟩]⟩ 7).interactablesList
        = ([7] : List Nat).erase 7
    ∧ (7 : Nat) ∉ (onUnset ⟨[7], [⟨7, true, true, false⟩]⟩ 7).interactablesList
    ∧ ∀ i ∈ (⟨[7], [⟨7, true, true, false⟩]⟩ : UnsetScope).interactionsList,
        (i.boundTo = 7 ∧ i.interactingB = true ∧ i.ending = true →
          i.stopRec ∈ (onUnset ⟨[7], [⟨7, true, true, false⟩]⟩ 7).interactionsList)
        ∧ (¬ (i.boundTo = 7 ∧ i.interactingB = true ∧ i.ending = true) →
          i ∈ (onUnset ⟨[7], [⟨7, true, true, false⟩]⟩ 7).interactionsList) :=
  unset_removes_interactable_and_stops_ending_interactions
    ⟨[7], [⟨7, true, true, false⟩]⟩ 7 (by decide) (by decide)

/-- C9: `interact(target, options)` retrieves the existing configuration
object for a target and context when one exists and creates a new one
(appending it to the scope's interactables list) only when none does;
hence a second call with the same target and context returns the same
object and leaves the scope unchanged. -/
theorem interactFn_retrieves_or_creates
    (s : IScope) (target context : Nat) :
    interactFn (interactFn s target context).2 target context
      = interactFn s target context
    ∧ (interactablesGet s target context).elim
        ((interactFn s target context).2.list
          = s.list ++ [(interactFn s target context).1])
        (fun e => interactFn s target context = (e, s)) := by
  cases hg : interactablesGet s target context with
  | some e =>
    have h1 : interactFn s target context = (e, s) := by
      simp [interactFn, hg]
    rw [h1]
    exact ⟨h1, by simp [hg]⟩
  | none =>
    have hfind : s.list.find?
        (fun x => x.target == target && x.context == context) = none := by
      simpa [interactablesGet] using hg
    have hget2 : interactablesGet (interactablesNew s target context).2 target context
        = some (interactablesNew s target context).1 := by
      simp [interactablesGet, interactablesNew, List.find?_append, hfind]
    have h1 : interactFn s target context = interactablesNew s target context := by
      simp [interactFn, hg]
    refine ⟨?_, ?_⟩
    · rw [h1]
      simp [interactFn, hget2]
    · simp only [hg, h1, Option.elim]
      simp [interactablesNew]

/-- C9 witness. -/
theorem interactFn_retrieves_or_creates_witness :
    interactFn (interactFn ⟨[], 0⟩ 3 4).2 3 4 = interactFn ⟨[], 0⟩ 3 4
    ∧ (interactablesGet ⟨[], 0⟩ 3 4).elim
        ((interactFn ⟨[], 0⟩ 3 4).2.list = ([] : List InteractableEntry)
          ++ [(interactFn ⟨[], 0⟩ 3 4).1])
        (fun e => interactFn ⟨[], 0⟩ 3 4 = (e, ⟨[], 0⟩)) :=
  interactFn_retrieves_or_creates ⟨[], 0⟩ 3 4

/-- C10: `interact.use(plugin)` is idempotent per plugin: a plugin already
in `scope._plugins` is neither re-installed nor re-appended, and a fresh
plugin has `install` invoked exactly once and is appended once; assuming
the invariant so far (installed set equals plugin list, no duplicates),
`scope._plugins` stays duplicate-free and the plugin's `install` has run
exactly once afterwards. -/
theorem use_installs_once_and_avoids_duplicates
    (s : PluginScope) (p : Nat)
    (hinv : s.installed = s.plugins) (hnd : s.plugins.Nodup) :
    use (use s p) p = use s p
    ∧ (p ∈ s.plugins → use s p = s)
    ∧ (p ∉ s.plugins →
        (use s p).plugins = s.plugins ++ [p]
          ∧ (use s p).installed = s.installed ++ [p])
    ∧ (use s p).plugins.Nodup
    ∧ (use s p).installed = (use s p).plugins
    ∧ (use s p).installed.count p = 1 := by
  by_cases hp : p ∈ s.plugins
  · refine ⟨by simp [use, hp], fun _ => by simp [use, hp], fun hq => absurd hp hq,
      by simpa [use, hp] using hnd, by simp [use, hp, hinv], ?_⟩
    simp only [use, if_pos hp, hinv]
    exact List.count_eq_one_of_mem hnd hp
  · have hfresh : use s p
        = { plugins := s.plugins ++ [p], installed := s.installed ++ [p] } := by
      simp [use, hp]
    refine ⟨?_, fun hq => absurd hq hp, fun _ => by rw [hfresh]; exact ⟨rfl, rfl⟩,
      ?_, ?_, ?_⟩
    · rw [hfresh]
      simp [use]
    · rw [hfresh]
      simp [List.nodup_append, hnd, hp]
    · rw [hfresh]
      simp [hinv]
    · rw [hfresh]
      simp [List.count_append, hinv, List.count_eq_zero_of_not_mem hp]

/-- C10 witness. -/
theorem use_installs_once_and_avoids_duplicates_witness :
    use (use ⟨[5], [5]⟩ 5) 5 = use ⟨[5], [5]⟩ 5
    ∧ ((5 : Nat) ∈ [5] → use ⟨[5], [5]⟩ 5 = ⟨[5], [5]⟩)
    ∧ ((5 : Nat) ∉ [5] →
        (use ⟨[5], [5]⟩ 5).plugins = [5] ++ [5]
          ∧ (use ⟨[5], [5]⟩ 5).installed = [5] ++ [5])
    ∧ (use ⟨[5], [5]⟩ 5).plugins.Nodup
    ∧ (use ⟨[5], [5]⟩ 5).installed = (use ⟨[5], [5]⟩ 5).plugins
    ∧ (use ⟨[5], [5]⟩ 5).installed.count 5 = 1 :=
  use_installs_once_and_avoids_duplicates ⟨[5], [5]⟩ 5 rfl (by decide)
